import Mathlib

/-!
Verification development for a retrieval-augmented product-information
chatbot.  The repository's Python modules are shallowly embedded here:

* `data_processor.py`   — directory walk, extension dispatch, per-file
  error recovery (`load_documents`, `get_processed_documents`);
* `vector_db_manager.py` — ChromaDB wrapper (`get_or_create_vector_store`),
  modelled as a transformer on the list of persisted records together with
  a trace of the store operations it performs;
* `rag_chain.py`        — pipeline initialization (`initialize_rag_chain`)
  and the composed chain (`format_docs`, prompt filling, LLM, parser);
* `chatbot_app.py`      — the chat input handler (`chatStep`) and the
  per-session message history (`runChat`).

External collaborators (PDF/TXT/Markdown readers, the text splitter, the
embedding model, the Ollama endpoint) are not part of the repository; they
appear as oracles: each file carries its reader's outcome, the splitter is
an arbitrary function, and the LLM endpoint is a fragment producer.
-/

namespace ElsewedyRag

/-- A LangChain `Document`: page content plus source metadata. -/
structure Document where
  page_content : String
  source : String
deriving DecidableEq

/-- Python `str.endswith(suffix)`: `suffix` is a suffix of the string.
Implemented as a structural check on reversed character lists so that it
evaluates by kernel reduction. -/
def listStartsWith : List Char → List Char → Bool
  | _, [] => true
  | [], _ :: _ => false
  | a :: as, b :: bs => a == b && listStartsWith as bs

/-- `nameEndsWith s suffix` models Python `s.endswith(suffix)`. -/
def nameEndsWith (s suffix : String) : Bool :=
  listStartsWith s.data.reverse suffix.data.reverse

/-- A file seen by the directory walk in `load_documents`: its name and the
outcome of its type-specific reader (`loader.load()`), which either yields a
list of Documents or raises. The readers themselves are external libraries,
so each file carries its reader's outcome as an oracle. -/
structure RawFile where
  name : String
  loadResult : Except String (List Document)

/-- The `try: documents.extend(loader.load()) except: ...` body of
`load_documents`: a reader failure is caught and contributes no Documents. -/
def tryLoad (f : RawFile) : List Document :=
  match f.loadResult with
  | Except.ok ds => ds
  | Except.error _ => []

/-- `data_processor.load_documents`: walk the files in order, dispatch by
extension (`.pdf`, `.txt`, `.md`/`.markdown`), skip unsupported extensions,
catch per-file reader failures, and accumulate all loaded Documents. -/
def load_documents : List RawFile → List Document
  | [] => []
  | f :: fs =>
    if nameEndsWith f.name ".pdf" then tryLoad f ++ load_documents fs
    else if nameEndsWith f.name ".txt" then tryLoad f ++ load_documents fs
    else if nameEndsWith f.name ".md" || nameEndsWith f.name ".markdown" then
      tryLoad f ++ load_documents fs
    else load_documents fs

/-- The extension dispatch condition of `load_documents`, as one predicate. -/
def isSupported (n : String) : Bool :=
  nameEndsWith n ".pdf" || nameEndsWith n ".txt" ||
    (nameEndsWith n ".md" || nameEndsWith n ".markdown")

/-- Whether a file's reader succeeded. -/
def loadedOk (f : RawFile) : Bool :=
  match f.loadResult with
  | Except.ok _ => true
  | Except.error _ => false

/-- Whether a successful reader outcome consists of exactly one Document
(readers that fail are not constrained). -/
def loadYieldsOne (f : RawFile) : Bool :=
  match f.loadResult with
  | Except.ok ds => ds.length == 1
  | Except.error _ => true

/-- `data_processor.get_processed_documents`: load the raw documents; if
none were loaded return the empty list, otherwise split them into chunks.
The splitter (`RecursiveCharacterTextSplitter`) is an external library,
passed as an oracle. -/
def get_processed_documents (files : List RawFile)
    (splitter : List Document → List Document) : List Document :=
  let raw := load_documents files
  if raw.isEmpty then [] else splitter raw

/-- The disk-level operations `get_or_create_vector_store` can perform on
the persisted Chroma collection. -/
inductive StoreOp where
  | rmtreeOp
  | loadOp
  | addDocumentsOp (n : Nat)
  | fromDocumentsOp (n : Nat)
deriving DecidableEq

/-- Result of `get_or_create_vector_store`: the returned handle (`None` on
failure), the records persisted on disk afterwards, and the trace of store
operations performed. -/
structure StoreResult where
  handle : Option Unit
  records : List Document
  ops : List StoreOp

/-- `vector_db_manager.get_or_create_vector_store`, as a transformer on the
persisted record list `store`.  `loadFails` is the oracle for the
`try: Chroma(...)` block raising.  Following the source: with
`force_recreate` the persist directory is deleted first; on a successful
load with `force_recreate = false` and a non-empty `documents` list the
chunks are appended via `add_documents`; otherwise a non-empty `documents`
list is inserted via `Chroma.from_documents` (which also appends to the
persisted collection); with no documents the loaded (possibly empty) store
is returned, except in the exception fallback, which returns `None`. -/
def get_or_create_vector_store (documents store : List Document)
    (loadFails force_recreate : Bool) : StoreResult :=
  let store0 := if force_recreate then [] else store
  let ops0 : List StoreOp := if force_recreate then [StoreOp.rmtreeOp] else []
  if loadFails then
    if documents.isEmpty then
      ⟨none, store0, ops0⟩
    else
      ⟨some (), store0 ++ documents, ops0 ++ [StoreOp.fromDocumentsOp documents.length]⟩
  else
    if !force_recreate && !documents.isEmpty then
      ⟨some (), store0 ++ documents,
        ops0 ++ [StoreOp.loadOp, StoreOp.addDocumentsOp documents.length]⟩
    else if !documents.isEmpty then
      ⟨some (), store0 ++ documents,
        ops0 ++ [StoreOp.loadOp, StoreOp.fromDocumentsOp documents.length]⟩
    else
      ⟨some (), store0, ops0 ++ [StoreOp.loadOp]⟩

/-- `config.RAG_PROMPT_TEMPLATE`, text before the `{context}` placeholder. -/
def promptPart1 : String :=
  "\nYou are a helpful assistant providing information about company products.\nAnswer the following question based ONLY on the provided context.\nIf the answer is not in the context, state that you don't have enough information.\nKeep your answer concise and to the point.\n\nContext:\n"

/-- `config.RAG_PROMPT_TEMPLATE`, text between `{context}` and `{question}`. -/
def promptPart2 : String := "\n\nQuestion: "

/-- `config.RAG_PROMPT_TEMPLATE`, text after the `{question}` placeholder. -/
def promptPart3 : String := "\n\nAnswer:\n"

/-- The full `config.RAG_PROMPT_TEMPLATE` string literal. -/
def RAG_PROMPT_TEMPLATE : String :=
  promptPart1 ++ "{context}" ++ promptPart2 ++ "{question}" ++ promptPart3

/-- `ChatPromptTemplate.from_template(RAG_PROMPT_TEMPLATE)` applied to a
context block and a question: simultaneous substitution of the two
placeholders of the fixed template. -/
def fillTemplate (c q : String) : String :=
  promptPart1 ++ c ++ promptPart2 ++ q ++ promptPart3

/-- Python `sep.join(pieces)`: the pieces interleaved with exactly one
separator between consecutive pieces. -/
def joinSep (sep : String) : List String → String
  | [] => ""
  | [s] => s
  | s :: t :: rest => s ++ sep ++ joinSep sep (t :: rest)

/-- `rag_chain.format_docs`: `"\n\n".join(doc.page_content for doc in docs)`. -/
def format_docs (docs : List Document) : String :=
  joinSep "\n\n" (docs.map Document.page_content)

/-- The prompt string the composed chain
`{context: retriever | format_docs, question: passthrough} | prompt`
produces for a question: the retriever's hits are formatted into the
context block and substituted, with the question, into the template. -/
def ragChainPrompt (retriever : String → List Document) (q : String) : String :=
  fillTemplate (format_docs (retriever q)) q

/-- `StrOutputParser` on a chat-model string output: the identity. -/
def strOutputParser (s : String) : String := s

/-- Modelled from the spec: the language-model endpoint (Ollama, external
to this repository) answers a prompt either as an incremental stream of
text fragments or as one full text body; the full body is the
concatenation of the streamed fragments. -/
structure LLMEndpoint where
  fragments : String → List String

/-- The endpoint's blocking call: the concatenation of its stream. -/
def LLMEndpoint.invokeLLM (m : LLMEndpoint) (p : String) : String :=
  String.join (m.fragments p)

/-- `rag_chain.stream(q)`: the chain feeds the filled prompt to the LLM and
passes each streamed fragment through `StrOutputParser`. -/
def ragChainStream (retriever : String → List Document) (m : LLMEndpoint)
    (q : String) : List String :=
  (m.fragments (ragChainPrompt retriever q)).map strOutputParser

/-- `rag_chain.invoke(q)`: the blocking call through the same composed
pipeline. -/
def ragChainInvoke (retriever : String → List Document) (m : LLMEndpoint)
    (q : String) : String :=
  strOutputParser (m.invokeLLM (ragChainPrompt retriever q))

/-- The initialization steps of `rag_chain.initialize_rag_chain`, in source
order. -/
inductive InitStep where
  | loadEmbedding
  | processDocs
  | createStore
  | buildRetriever
  | initLLM
  | composeChain
deriving DecidableEq

/-- Oracles for the external services touched during initialization:
the embedding model load outcome, the corpus files, the splitter, the
persisted records already on disk, whether the `Chroma(...)` load raises,
and whether retriever creation and Ollama construction succeed. -/
structure InitEnv where
  embeddingModel : Option Unit
  files : List RawFile
  splitter : List Document → List Document
  existingStore : List Document
  storeLoadFails : Bool
  retrieverOk : Bool
  llmOk : Bool

/-- Result of `initialize_rag_chain`: the chain handle (`None` on any
failure), the persisted store afterwards, the store operations performed,
and the trace of initialization steps reached. -/
structure InitResult where
  chain : Option Unit
  store : List Document
  storeOps : List StoreOp
  trace : List InitStep

/-- `rag_chain.initialize_rag_chain`: load the embedding model (abort with
`None` on failure), process the documents (proceeding even when empty),
create or load the vector store with `force_recreate=False` (abort with
`None` on failure), build the retriever, construct the Ollama client, and
compose the chain; each remaining failure also aborts with `None`. -/
def initialize_rag_chain (env : InitEnv) : InitResult :=
  match env.embeddingModel with
  | none => ⟨none, env.existingStore, [], [InitStep.loadEmbedding]⟩
  | some _ =>
    let docs := get_processed_documents env.files env.splitter
    let r := get_or_create_vector_store docs env.existingStore env.storeLoadFails false
    match r.handle with
    | none =>
      ⟨none, r.records, r.ops,
        [InitStep.loadEmbedding, InitStep.processDocs, InitStep.createStore]⟩
    | some _ =>
      if env.retrieverOk then
        if env.llmOk then
          ⟨some (), r.records, r.ops,
            [InitStep.loadEmbedding, InitStep.processDocs, InitStep.createStore,
             InitStep.buildRetriever, InitStep.initLLM, InitStep.composeChain]⟩
        else
          ⟨none, r.records, r.ops,
            [InitStep.loadEmbedding, InitStep.processDocs, InitStep.createStore,
             InitStep.buildRetriever, InitStep.initLLM]⟩
      else
        ⟨none, r.records, r.ops,
          [InitStep.loadEmbedding, InitStep.processDocs, InitStep.createStore,
           InitStep.buildRetriever]⟩

/-- A chat message held in `st.session_state.messages`. -/
structure Message where
  role : String
  content : String
deriving DecidableEq

/-- Outcome of one `rag_chain.stream(prompt)` consumption in the chat
handler: either the full fragment list, or an exception raised after some
early fragments were received. -/
inductive GenOutcome where
  | ok (frags : List String)
  | err (earlyFrags : List String) (e : String)

/-- Process-wide app state: the memoized `setup_rag_chain()` result
(`st.cache_resource` runs initialization once per process) and the
session message history. -/
structure AppState where
  ragChain : Option Unit
  messages : List Message

/-- Result of one chat turn: the new state, the assistant's reply text for
the turn, and the argument passed to `rag_chain.stream` (if the chain was
invoked at all). -/
structure TurnResult where
  state : AppState
  reply : String
  streamedInput : Option String

/-- The fixed reply when the chain is uninitialized
(`chatbot_app.py`, else-branch of the chat input handler). -/
def notInitializedReply : String :=
  "Chatbot is not initialized. Please check the setup messages above."

/-- The inline reply built in the `except` branch of the chat input
handler from the caught exception text. -/
def errorReply (e : String) : String :=
  "An error occurred: " ++ e ++ ". Please check the console and ensure Ollama is running."

/-- The chat input handler of `chatbot_app.py` for one submitted prompt:
append the user message; if the chain is absent reply with the fixed
not-initialized text; otherwise stream the chain on the prompt alone,
accumulating fragments, and on an exception discard the accumulation and
reply with the inline error text; finally append the assistant message. -/
def chatStep (s : AppState) (q : String) (g : GenOutcome) : TurnResult :=
  let msgs1 := s.messages ++ [⟨"user", q⟩]
  match s.ragChain with
  | none =>
    ⟨⟨none, msgs1 ++ [⟨"assistant", notInitializedReply⟩]⟩, notInitializedReply, none⟩
  | some c =>
    let reply :=
      match g with
      | GenOutcome.ok frags => String.join frags
      | GenOutcome.err _ e => errorReply e
    ⟨⟨some c, msgs1 ++ [⟨"assistant", reply⟩]⟩, reply, some q⟩

/-- A whole chat session: fold `chatStep` over the submitted prompts with
their generation outcomes, collecting the assistant replies. The memoized
chain handle is part of the state and is never recomputed. -/
def runChat : AppState → List (String × GenOutcome) → AppState × List String
  | s, [] => (s, [])
  | s, (q, g) :: rest =>
    let r := chatStep s q g
    let p := runChat r.state rest
    (p.1, r.reply :: p.2)

/-- Process startup: `setup_rag_chain()` runs `initialize_rag_chain` once
and the chat page starts with an empty message history. -/
def appStart (env : InitEnv) : AppState :=
  ⟨(initialize_rag_chain env).chain, []⟩

/-- The prompt string that reaches the language model in one chat turn:
the handler's argument to `rag_chain.stream`, fed through the chain's
prompt stage (`none` when the chain was never invoked). -/
def promptReachingModel (retriever : String → List Document) (s : AppState)
    (q : String) (g : GenOutcome) : Option String :=
  (chatStep s q g).streamedInput.map (fun inp => ragChainPrompt retriever inp)

/-- Concrete document used by the witnesses. -/
def docA : Document := ⟨"Product A is a high-performance gadget. It costs $100.", "data/product_docs/a.pdf"⟩

/-- Concrete document used by the witnesses. -/
def docB : Document := ⟨"Product B is a budget-friendly option. It costs $50.", "data/product_docs/b.txt"⟩

/-- Concrete document used by the witnesses. -/
def docC : Document := ⟨"FAQ: 1 year limited warranty.", "data/product_docs/faq.md"⟩

/-- Concrete document used by the witnesses. -/
def docD : Document := ⟨"Install guide: follow steps 1, 2, 3.", "data/product_docs/guide.markdown"⟩

/-- Witness directory: one loadable file of each supported extension, one
file with an unsupported extension, and one supported file whose reader
fails. -/
def filesMixed : List RawFile :=
  [⟨"a.pdf", Except.ok [docA]⟩,
   ⟨"b.txt", Except.ok [docB]⟩,
   ⟨"faq.md", Except.ok [docC]⟩,
   ⟨"guide.markdown", Except.ok [docD]⟩,
   ⟨"logo.png", Except.ok [docA]⟩,
   ⟨"broken.txt", Except.error "utf-8 decode failure"⟩]

/-- Witness directory holding only files with unsupported extensions. -/
def filesUnsupported : List RawFile :=
  [⟨"logo.png", Except.ok [docA]⟩, ⟨"notes.org", Except.error "io failure"⟩]

/-- Witness initialization environment whose embedding-model load fails. -/
def envEmbedFail : InitEnv :=
  ⟨none, filesMixed, fun ds => ds, [docA], false, true, true⟩

end ElsewedyRag

namespace ElsewedyRag

theorem tryLoad_of_error {f : RawFile} {e : String}
    (h : f.loadResult = Except.error e) : tryLoad f = [] := by
  simp [tryLoad, h]

theorem load_documents_cons (f : RawFile) (fs : List RawFile) :
    load_documents (f :: fs)
      = (if isSupported f.name then tryLoad f else []) ++ load_documents fs := by
  cases h1 : nameEndsWith f.name ".pdf" <;>
    cases h2 : nameEndsWith f.name ".txt" <;>
      cases h3 : nameEndsWith f.name ".md" <;>
        cases h4 : nameEndsWith f.name ".markdown" <;>
          simp [load_documents, isSupported, h1, h2, h3, h4]

theorem load_documents_filter_supported (files : List RawFile) :
    load_documents files
      = load_documents (files.filter fun f => isSupported f.name) := by
  induction files with
  | nil => rfl
  | cons f fs ih =>
    cases hs : isSupported f.name <;>
      simp [load_documents_cons, List.filter_cons, hs, ih]

/-- C3: for every directory containing one file of each supported extension
(.pdf, .txt, .md, .markdown) plus files with unsupported extensions — and in
general whenever each loadable supported file's reader yields a single
Document — `load_documents` returns exactly one Document per loadable
supported file, and files with unsupported extensions contribute zero
Documents. -/
theorem c3_one_document_per_loadable_supported_file (files : List RawFile)
    (h : ∀ f ∈ files, isSupported f.name = true → loadYieldsOne f = true) :
    (load_documents files).length
      = (files.filter fun f => isSupported f.name && loadedOk f).length
    ∧ load_documents files
      = load_documents (files.filter fun f => isSupported f.name) := by
  refine ⟨?_, load_documents_filter_supported files⟩
  induction files with
  | nil => rfl
  | cons f fs ih =>
    have hf := h f (List.mem_cons_self f fs)
    have hrest := ih fun g hg => h g (List.mem_cons_of_mem f hg)
    rw [load_documents_cons, List.filter_cons]
    cases hs : isSupported f.name with
    | false => simpa [hs] using hrest
    | true =>
      cases hl : f.loadResult with
      | error e =>
        simp [hs, tryLoad_of_error hl, loadedOk, hl, hrest]
      | ok ds =>
        have h1 : ds.length = 1 := by
          have := hf hs
          simpa [loadYieldsOne, hl] using this
        simp [hs, tryLoad, hl, loadedOk, h1, hrest]
        omega

/-- C3 witness: in a directory with one loadable file of each supported
extension, one unsupported file and one failing supported file, exactly the
four loadable supported files contribute one Document each. -/
theorem c3_witness :
    (load_documents filesMixed).length
      = (filesMixed.filter fun f => isSupported f.name && loadedOk f).length :=
  (c3_one_document_per_loadable_supported_file filesMixed (by decide)).1

/-- C6: a per-file load failure is caught: the failing file contributes no
Documents and loading continues with the remaining files; a directory with
no supported files yields the empty sequence from both `load_documents`
and `get_processed_documents`, not an error. -/
theorem c6_per_file_failure_skipped (pre post files : List RawFile)
    (f : RawFile) (e : String) (splitter : List Document → List Document)
    (hf : f.loadResult = Except.error e)
    (hn : ∀ g ∈ files, isSupported g.name = false) :
    load_documents (pre ++ f :: post) = load_documents (pre ++ post)
    ∧ load_documents files = []
    ∧ get_processed_documents files splitter = [] := by
  have hempty : load_documents files = [] := by
    induction files with
    | nil => rfl
    | cons g gs ih =>
      have hg := hn g (List.mem_cons_self g gs)
      rw [load_documents_cons, hg]
      simpa using ih fun g' hg' => hn g' (List.mem_cons_of_mem g hg')
  refine ⟨?_, hempty, ?_⟩
  · induction pre with
    | nil =>
      rw [List.nil_append, List.nil_append, load_documents_cons,
        tryLoad_of_error hf]
      simp
    | cons p ps ih =>
      rw [List.cons_append, List.cons_append, load_documents_cons,
        load_documents_cons, ih]
  · simp [get_processed_documents, hempty]

/-- C6 witness: a failing `.pdf` between two loadable files contributes
nothing, and a directory of unsupported files processes to the empty
list. -/
theorem c6_witness :
    load_documents
        [⟨"ok1.txt", Except.ok [docB]⟩, ⟨"bad.pdf", Except.error "io failure"⟩,
         ⟨"ok2.md", Except.ok [docC]⟩]
      = load_documents [⟨"ok1.txt", Except.ok [docB]⟩, ⟨"ok2.md", Except.ok [docC]⟩]
    ∧ get_processed_documents filesUnsupported (fun ds => ds) = [] := by
  have h := c6_per_file_failure_skipped
    [⟨"ok1.txt", Except.ok [docB]⟩] [⟨"ok2.md", Except.ok [docC]⟩]
    filesUnsupported ⟨"bad.pdf", Except.error "io failure"⟩ "io failure"
    (fun ds => ds) rfl (by decide)
  exact ⟨h.1, h.2.2⟩

/-- C2: with `force_recreate=False` and a non-empty chunk list, a
successful load appends every passed chunk to the store via
`add_documents` with no uniqueness check, so a repeated call with the
identical chunks appends them again: each chunk's record count grows by
twice its multiplicity in the passed list. -/
theorem c2_store_append_only_no_dedup (docs store : List Document)
    (hne : docs ≠ []) :
    (get_or_create_vector_store docs store false false).handle = some ()
    ∧ (get_or_create_vector_store docs store false false).records = store ++ docs
    ∧ (get_or_create_vector_store docs store false false).ops
        = [StoreOp.loadOp, StoreOp.addDocumentsOp docs.length]
    ∧ (get_or_create_vector_store docs
        (get_or_create_vector_store docs store false false).records false false).records
        = store ++ docs ++ docs
    ∧ ∀ c : Document,
        ((get_or_create_vector_store docs
            (get_or_create_vector_store docs store false false).records false false).records).count c
          = store.count c + 2 * docs.count c := by
  have hemp : docs.isEmpty = false := by
    cases docs with
    | nil => exact absurd rfl hne
    | cons d ds => rfl
  refine ⟨?_, ?_, ?_, ?_, ?_⟩ <;>
    simp [get_or_create_vector_store, hemp, List.count_append]
  intro c
  omega

/-- C2 witness: re-adding the single chunk `docA` to an initially empty
store leaves two copies of it. -/
theorem c2_witness :
    ((get_or_create_vector_store [docA]
        (get_or_create_vector_store [docA] [] false false).records false false).records).count docA
      = ([] : List Document).count docA + 2 * [docA].count docA :=
  (c2_store_append_only_no_dedup [docA] [] (by simp)).2.2.2.2 docA

theorem gocvs_no_recreate_grows (documents store : List Document)
    (loadFails : Bool) :
    StoreOp.rmtreeOp ∉ (get_or_create_vector_store documents store loadFails false).ops
    ∧ ∃ added,
        (get_or_create_vector_store documents store loadFails false).records
          = store ++ added := by
  cases loadFails <;> cases h : documents.isEmpty <;>
    simp [get_or_create_vector_store, h]

/-- C10: the startup path only calls `get_or_create_vector_store` with
`force_recreate=False`, so the branch deleting the persist directory is
never taken during initialization: no `rmtree` occurs and every record
present before initialization is still present afterwards — the store only
grows. -/
theorem c10_init_never_deletes_store (env : InitEnv) :
    StoreOp.rmtreeOp ∉ (initialize_rag_chain env).storeOps
    ∧ ∃ added, (initialize_rag_chain env).store = env.existingStore ++ added := by
  cases hEmb : env.embeddingModel with
  | none => simp [initialize_rag_chain, hEmb]
  | some u =>
    have h := gocvs_no_recreate_grows
      (get_processed_documents env.files env.splitter) env.existingStore
      env.storeLoadFails
    simp only [initialize_rag_chain, hEmb]
    cases hh : (get_or_create_vector_store
        (get_processed_documents env.files env.splitter) env.existingStore
        env.storeLoadFails false).handle with
    | none => exact h
    | some v =>
      cases env.retrieverOk <;> cases env.llmOk <;> simpa using h

/-- C4: when the embedding provider fails to load,
`initialize_rag_chain` aborts with `None`: the trace stops after the
embedding-load step, no store operation runs, and the persisted store is
untouched — a missing embedding provider is fatal to the whole
pipeline. -/
theorem c4_missing_embedding_model_fatal (env : InitEnv)
    (h : env.embeddingModel = none) :
    (initialize_rag_chain env).chain = none
    ∧ (initialize_rag_chain env).trace = [InitStep.loadEmbedding]
    ∧ (initialize_rag_chain env).storeOps = []
    ∧ (initialize_rag_chain env).store = env.existingStore := by
  simp [initialize_rag_chain, h]

/-- C4 witness: in the concrete environment whose embedding model load
fails, initialization returns `None` after only the embedding step. -/
theorem c4_witness :
    (initialize_rag_chain envEmbedFail).chain = none
    ∧ (initialize_rag_chain envEmbedFail).trace = [InitStep.loadEmbedding] :=
  ⟨(c4_missing_embedding_model_fatal envEmbedFail rfl).1,
   (c4_missing_embedding_model_fatal envEmbedFail rfl).2.1⟩

theorem runChat_uninitialized (msgs : List Message)
    (turns : List (String × GenOutcome)) :
    (runChat ⟨none, msgs⟩ turns).1.ragChain = none
    ∧ ∀ r ∈ (runChat ⟨none, msgs⟩ turns).2, r = notInitializedReply := by
  induction turns generalizing msgs with
  | nil => simp [runChat]
  | cons t rest ih =>
    obtain ⟨q, g⟩ := t
    have hstep := ih ((msgs ++ [⟨"user", q⟩]) ++ [⟨"assistant", notInitializedReply⟩])
    refine ⟨hstep.1, ?_⟩
    intro r hr
    simp only [runChat, chatStep, List.mem_cons] at hr
    rcases hr with hr | hr
    · exact hr
    · exact hstep.2 r hr

/-- C1: if `initialize_rag_chain` returns `None`, the pipeline stays in a
failed terminal state for the whole process: the memoized chain handle
remains `None` after any sequence of chat turns (initialization is never
retried), and every turn's reply is the same fixed not-initialized text
rather than an unhandled fault. -/
theorem c1_failed_init_is_terminal (env : InitEnv)
    (turns : List (String × GenOutcome))
    (h : (initialize_rag_chain env).chain = none) :
    (runChat (appStart env) turns).1.ragChain = none
    ∧ ∀ r ∈ (runChat (appStart env) turns).2, r = notInitializedReply := by
  have := runChat_uninitialized [] turns
  simpa [appStart, h] using this

/-- C1 witness: with the failing environment, two subsequent questions
both get the fixed not-initialized reply and the chain stays `None`. -/
theorem c1_witness :
    (runChat (appStart envEmbedFail)
        [("q1", GenOutcome.ok ["hello"]), ("q2", GenOutcome.err [] "boom")]).1.ragChain = none :=
  (c1_failed_init_is_terminal envEmbedFail
    [("q1", GenOutcome.ok ["hello"]), ("q2", GenOutcome.err [] "boom")] rfl).1

/-- C5: after a successful initialization, an exception raised during
generation is caught at the handler boundary: the assistant's reply for
that one turn is the inline error text built from the exception, the
message history records exactly that turn, the chain handle is untouched,
a following successful question streams its answer normally, and a turn's
reply never depends on the accumulated history — the process does not
crash. -/
theorem c5_generation_failure_is_per_turn (msgs msgs2 : List Message)
    (q q2 e : String) (ef frags : List String) (g : GenOutcome) :
    (chatStep ⟨some (), msgs⟩ q (GenOutcome.err ef e)).reply = errorReply e
    ∧ (chatStep ⟨some (), msgs⟩ q (GenOutcome.err ef e)).state.messages
        = msgs ++ [⟨"user", q⟩, ⟨"assistant", errorReply e⟩]
    ∧ (chatStep ⟨some (), msgs⟩ q (GenOutcome.err ef e)).state.ragChain = some ()
    ∧ (chatStep (chatStep ⟨some (), msgs⟩ q (GenOutcome.err ef e)).state q2
        (GenOutcome.ok frags)).reply = String.join frags
    ∧ (chatStep ⟨some (), msgs⟩ q2 g).reply
        = (chatStep ⟨some (), msgs2⟩ q2 g).reply := by
  refine ⟨rfl, by simp [chatStep], rfl, rfl, ?_⟩
  cases g <;> rfl

/-- C7: `format_docs` joins the retrieved chunks' content texts with
exactly one blank line between consecutive chunks, preserving retrieval
order, and the prompt the chain sends to the model is the fixed template
with exactly that context block and the user's question substituted in. -/
theorem c7_prompt_is_template_with_joined_context
    (retriever : String → List Document) (q : String) (d d2 : Document)
    (ds : List Document) :
    ragChainPrompt retriever q
      = promptPart1 ++ joinSep "\n\n" ((retriever q).map Document.page_content)
          ++ promptPart2 ++ q ++ promptPart3
    ∧ format_docs [] = ""
    ∧ format_docs [d] = d.page_content
    ∧ format_docs (d :: d2 :: ds)
        = d.page_content ++ "\n\n" ++ format_docs (d2 :: ds)
    ∧ RAG_PROMPT_TEMPLATE = fillTemplate "{context}" "{question}" :=
  ⟨rfl, rfl, rfl, rfl, rfl⟩

/-- C8: each chat turn is stateless with respect to prior questions: the
handler passes only the submitted question to `rag_chain.stream`, and the
prompt reaching the model is determined by the question and the retriever
(the vector-store contents) alone — identical for any two accumulated
message histories and generation outcomes. -/
theorem c8_prompt_stateless_in_history (retriever : String → List Document)
    (msgs1 msgs2 : List Message) (q : String) (g1 g2 : GenOutcome) :
    promptReachingModel retriever ⟨some (), msgs1⟩ q g1
      = promptReachingModel retriever ⟨some (), msgs2⟩ q g2
    ∧ promptReachingModel retriever ⟨some (), msgs1⟩ q g1
        = some (fillTemplate (format_docs (retriever q)) q)
    ∧ (chatStep ⟨some (), msgs1⟩ q g1).streamedInput = some q :=
  ⟨rfl, rfl, rfl⟩

/-- C9: concatenating, in order, the fragments yielded by the streaming
invocation of the composed chain produces the same answer text as the
single blocking invocation of the same pipeline. -/
theorem c9_stream_concat_eq_invoke (retriever : String → List Document)
    (m : LLMEndpoint) (q : String) :
    String.join (ragChainStream retriever m q) = ragChainInvoke retriever m q := by
  simp only [ragChainStream, ragChainInvoke, LLMEndpoint.invokeLLM, strOutputParser]
  exact congrArg String.join (List.map_id _)

end ElsewedyRag
